import Mathlib

/-!
Verification of the hub-and-spoke interconnect optimisation model
(optimise_hubandspoke_interconnect.py): distance helpers, feasibility graph
construction, viable-entity pruning, constraint structure, the staged solver
orchestration, result extraction and the placeholder cost functions.

Real-valued code (trigonometric distance formulas) is embedded over ℝ; data
tables and solved variable values, which are plain numbers, are embedded over
ℚ; identifiers are ℤ (the source wraps every id in int(...)).
-/

/-- Degree-to-radian conversion, as performed by np.radians. -/
noncomputable def deg2rad (x : ℝ) : ℝ := x * (Real.pi / 180)

/-- Haversine distance in metres, from haversine_distance_scalar
(Earth radius r = 6371 * 1e3). -/
noncomputable def haversine_distance_scalar (lon1 lat1 lon2 lat2 : ℝ) : ℝ :=
  let r : ℝ := 6371 * 1000
  let lon1r := deg2rad lon1
  let lat1r := deg2rad lat1
  let lon2r := deg2rad lon2
  let lat2r := deg2rad lat2
  let dlon := lon2r - lon1r
  let dlat := lat2r - lat1r
  let a := Real.sin (dlat / 2) ^ 2 +
    Real.cos lat1r * Real.cos lat2r * Real.sin (dlon / 2) ^ 2
  let c := 2 * Real.arcsin (Real.sqrt a)
  c * r

/-- Haversine distance in kilometres, from haversine (Earth radius r = 6371). -/
noncomputable def haversine (lon1 lat1 lon2 lat2 : ℝ) : ℝ :=
  let lon1r := deg2rad lon1
  let lat1r := deg2rad lat1
  let lon2r := deg2rad lon2
  let lat2r := deg2rad lat2
  let dlon := lon2r - lon1r
  let dlat := lat2r - lat1r
  let a := Real.sin (dlat / 2) ^ 2 +
    Real.cos lat1r * Real.cos lat2r * Real.sin (dlon / 2) ^ 2
  let c := 2 * Real.arcsin (Real.sqrt a)
  let r : ℝ := 6371
  c * r

/-- A geographic entity as the feasibility graph builder sees it: an integer
id and the per-id longitude, latitude and (integer-mapped) ISO country code
dictionaries of the source, bundled per entity. -/
structure GeoEnt where
  id : ℤ
  iso : ℕ
  lon : ℝ
  lat : ℝ

/-- find_viable_iac: all (wind farm, offshore substation) pairs whose
haversine distance is at most 150 km and whose ISO codes match, in the
product order of the source loop. -/
noncomputable def find_viable_iac (wf oss : List GeoEnt) : List (ℤ × ℤ) :=
  wf.flatMap fun w =>
    oss.filterMap fun o =>
      if haversine w.lon w.lat o.lon o.lat ≤ 150 then
        if w.iso = o.iso then some (w.id, o.id) else none
      else none

/-- find_viable_ec: all (offshore substation, onshore substation) pairs whose
haversine distance is at most 300 km and whose ISO codes match. -/
noncomputable def find_viable_ec (oss onss : List GeoEnt) : List (ℤ × ℤ) :=
  oss.flatMap fun o =>
    onss.filterMap fun n =>
      if haversine o.lon o.lat n.lon n.lat ≤ 300 then
        if o.iso = n.iso then some (o.id, n.id) else none
      else none

/-- Concrete wind farm used to witness the feasibility theorems. -/
def wfW : GeoEnt := ⟨1, 1, 0, 0⟩

/-- Concrete offshore substation used to witness the feasibility theorems. -/
def ossW : GeoEnt := ⟨2, 1, 0, 0⟩

/-- Concrete onshore substation used to witness the feasibility theorems. -/
def onssW : GeoEnt := ⟨3, 1, 0, 0⟩

/-- get_viable_entities: the set of wind farm ids appearing as first
components of viable inter-array connections, the set of offshore substation
ids appearing as second components of inter-array connections or first
components of export connections, and the set of onshore substation ids
appearing as second components of export connections (the source builds the
three Python sets by iterating both connection lists). -/
def get_viable_entities (viable_iac viable_ec : List (ℤ × ℤ)) :
    Finset ℤ × Finset ℤ × Finset ℤ :=
  ((viable_iac.map Prod.fst).toFinset,
   (viable_iac.map Prod.snd).toFinset ∪ (viable_ec.map Prod.fst).toFinset,
   (viable_ec.map Prod.snd).toFinset)

/-- Index sets over which opt_model declares its decision variables:
wf_bool_var over viable_wf_ids, oss_cap_var over viable_oss_ids,
onss_cap_var over viable_onss_ids, iac_cap_var over viable_iac_ids and
ec_cap_var over viable_ec_ids. -/
structure ModelVars where
  wf_bool_var_idx : Finset ℤ
  oss_cap_var_idx : Finset ℤ
  onss_cap_var_idx : Finset ℤ
  iac_cap_var_idx : Finset (ℤ × ℤ)
  ec_cap_var_idx : Finset (ℤ × ℤ)

/-- Variable declaration step of opt_model: the decision variables are
indexed exactly by the viable entity sets derived from the viable
connections, and by the viable connection lists themselves. -/
def declare_variables (viable_iac viable_ec : List (ℤ × ℤ)) : ModelVars :=
  ⟨(get_viable_entities viable_iac viable_ec).1,
   (get_viable_entities viable_iac viable_ec).2.1,
   (get_viable_entities viable_iac viable_ec).2.2,
   viable_iac.toFinset,
   viable_ec.toFinset⟩

/-- onss_cost_plh: cost of expanding an onshore substation above its
capacity threshold, computed as ((c - t) * 1000 + abs((c - t) * 1000)) / 2. -/
def onss_cost_plh (capacity threshold : ℚ) : ℚ :=
  let cost_function := (capacity - threshold) * 1000
  (cost_function + |cost_function|) / 2

/-- Pyomo SolverStatus values distinguished by the orchestrator. -/
inductive SolverStatus
  | ok
  | error
  | warning
  | other
deriving DecidableEq, Fintype

/-- Pyomo TerminationCondition values distinguished by the orchestrator. -/
inductive TerminationCondition
  | optimal
  | infeasible
  | unbounded
  | other
deriving DecidableEq, Fintype

/-- Result of one solver.solve invocation: a status and a termination
condition. -/
structure SolveResult where
  status : SolverStatus
  termination : TerminationCondition
deriving DecidableEq, Fintype

/-- Whether a decision variable family is free or has been fixed to its
Stage 1 solved values by fix(). -/
inductive VarState
  | free
  | fixedStage1
deriving DecidableEq

/-- Activation state of the five constraints and fixing state of the five
decision variable families of opt_model. -/
structure ModelStage where
  tot_wf_cap_con_active : Bool
  iac_cap_connect_con_active : Bool
  oss_cap_connect_con_active : Bool
  ec_cap_connect_con_active : Bool
  onss_cap_connect_con_active : Bool
  wf_bool_var_state : VarState
  oss_cap_var_state : VarState
  iac_cap_var_state : VarState
  onss_cap_var_state : VarState
  ec_cap_var_state : VarState
deriving DecidableEq

/-- State of the model when opt_model reaches its solve section: Pyomo
declares every constraint active and every variable free. -/
def model_initial : ModelStage :=
  ⟨true, true, true, true, true, VarState.free, VarState.free, VarState.free,
   VarState.free, VarState.free⟩

/-- The call model.onss_cap_connect_con.deactivate(), the only model
mutation opt_model performs before the Stage 1 solve. -/
def deactivate_onss_cap_connect (m : ModelStage) : ModelStage :=
  { m with onss_cap_connect_con_active := false }

/-- Model state at the moment the Stage 1 solve is invoked. -/
def model_at_stage1_solve : ModelStage :=
  deactivate_onss_cap_connect model_initial

/-- The fix() loops run after the Stage 1 solve: wf_bool_var, oss_cap_var
and iac_cap_var are fixed at their Stage 1 solved values. -/
def fix_stage1_vars (m : ModelStage) : ModelStage :=
  { m with wf_bool_var_state := VarState.fixedStage1,
           oss_cap_var_state := VarState.fixedStage1,
           iac_cap_var_state := VarState.fixedStage1 }

/-- The deactivate and activate calls run between the fix() loops and the
Stage 2 solve. -/
def stage2_constraint_setup (m : ModelStage) : ModelStage :=
  { m with tot_wf_cap_con_active := false,
           iac_cap_connect_con_active := false,
           oss_cap_connect_con_active := false,
           ec_cap_connect_con_active := true,
           onss_cap_connect_con_active := true }

/-- Model state at the moment the Stage 2 solve is invoked. -/
def model_at_stage2_solve : ModelStage :=
  stage2_constraint_setup (fix_stage1_vars model_at_stage1_solve)

/-- Observable orchestration events of the solve section of opt_model. -/
inductive OrchEvent
  | solveStage1
  | fixStage1Vars
  | solveStage2
  | saveResults
deriving DecidableEq

/-- Event sequence of the solve section of opt_model, as a function of the
two solver invocation results: the Stage 1 solve, the unconditional fix()
loops, the Stage 2 solve, and save_results exactly when the Stage 2 result
has status ok with termination optimal (the status check at the end of
opt_model inspects only the Stage 2 result). -/
def opt_model_orchestration (results_stage1 results : SolveResult) :
    List OrchEvent :=
  [OrchEvent.solveStage1, OrchEvent.fixStage1Vars, OrchEvent.solveStage2] ++
    (if results.status = SolverStatus.ok ∧
        results.termination = TerminationCondition.optimal then
      [OrchEvent.saveResults]
    else [])

/-- A Stage 1 result reporting infeasibility. -/
def infeasible_stage1 : SolveResult :=
  ⟨SolverStatus.ok, TerminationCondition.infeasible⟩

/-- A Stage 2 result reporting an optimal solution. -/
def optimal_result : SolveResult :=
  ⟨SolverStatus.ok, TerminationCondition.optimal⟩

/-- Left-hand side of ec_cap_connect_rule as written in the source: the sum
of ec_cap_var[oss, onss] over onss drawn from viable_oss_ids (the offshore
set) such that (oss, onss) is a viable export connection. -/
def ec_cap_connect_rule_lhs (viable_oss_ids : Finset ℤ)
    (viable_ec_ids : Finset (ℤ × ℤ)) (ec_cap_var : ℤ × ℤ → ℚ) (oss : ℤ) : ℚ :=
  Finset.sum
    (Finset.filter (fun onss => (oss, onss) ∈ viable_ec_ids) viable_oss_ids)
    (fun onss => ec_cap_var (oss, onss))

/-- ec_cap_connect_rule as written in the source: the summed export capacity
must be at least the offshore substation capacity variable. -/
def ec_cap_connect_rule (viable_oss_ids : Finset ℤ)
    (viable_ec_ids : Finset (ℤ × ℤ)) (ec_cap_var : ℤ × ℤ → ℚ)
    (oss_cap_var : ℤ → ℚ) (oss : ℤ) : Prop :=
  oss_cap_var oss ≤
    ec_cap_connect_rule_lhs viable_oss_ids viable_ec_ids ec_cap_var oss

/-- Export-balance left-hand side following the claim's words: the sum of
ec_cap_var[oss, onss] over onss drawn from the viable onshore substation
set such that (oss, onss) is a viable export connection. -/
def ec_cap_connect_rule_lhs_claim (viable_onss_ids : Finset ℤ)
    (viable_ec_ids : Finset (ℤ × ℤ)) (ec_cap_var : ℤ × ℤ → ℚ) (oss : ℤ) : ℚ :=
  Finset.sum
    (Finset.filter (fun onss => (oss, onss) ∈ viable_ec_ids) viable_onss_ids)
    (fun onss => ec_cap_var (oss, onss))

/-- Export-balance constraint following the claim's words. -/
def ec_cap_connect_rule_claim (viable_onss_ids : Finset ℤ)
    (viable_ec_ids : Finset (ℤ × ℤ)) (ec_cap_var : ℤ × ℤ → ℚ)
    (oss_cap_var : ℤ → ℚ) (oss : ℤ) : Prop :=
  oss_cap_var oss ≤
    ec_cap_connect_rule_lhs_claim viable_onss_ids viable_ec_ids ec_cap_var oss

/-- Constant rational-valued capacity assignment on edges. -/
def const_edge_cap (c : ℚ) : ℤ × ℤ → ℚ := fun p => c

/-- Constant rational-valued capacity assignment on nodes. -/
def const_node_cap (c : ℚ) : ℤ → ℚ := fun x => c

/-- Constant integer-mapped ISO assignment on nodes. -/
def const_node_iso : ℤ → ℕ := fun x => 1

/-- iso_to_int_mp: the hardcoded map from Baltic Sea ISO country codes to
unique integers; an unlisted code has no entry (a Python KeyError, embedded
as none). -/
def iso_to_int_mp (iso : String) : Option ℕ :=
  match iso with
  | "DE" => some 1
  | "DK" => some 2
  | "EE" => some 3
  | "FI" => some 4
  | "LV" => some 5
  | "LT" => some 6
  | "PL" => some 7
  | "SE" => some 8
  | _ => none

/-- int_to_iso_mp: the inverse map used by save_results to restore the
two-letter code of a stored integer. -/
def int_to_iso_mp (k : ℕ) : Option String :=
  match k with
  | 1 => some "DE"
  | 2 => some "DK"
  | 3 => some "EE"
  | 4 => some "FI"
  | 5 => some "LV"
  | 6 => some "LT"
  | 7 => some "PL"
  | 8 => some "SE"
  | _ => none

/-- exp_f of save_results: a cost expression value rounded to a whole unit. -/
def exp_f (e : ℚ) : ℤ := round e

/-- var_f of save_results: a solved variable value rounded to a whole unit. -/
def var_f (v : ℚ) : ℤ := round v

/-- The wind farm record emitted by save_results: id, restored ISO code,
coordinates, capacity and cost parameters. -/
def wf_record (wf_iso : ℤ → ℕ) (wf_lon wf_lat wf_cap wf_cost : ℤ → ℚ)
    (wf : ℤ) : ℤ × Option String × ℚ × ℚ × ℚ × ℚ :=
  (wf, int_to_iso_mp (wf_iso wf), wf_lon wf, wf_lat wf, wf_cap wf, wf_cost wf)

/-- The wf_ids collection of save_results: one record for each viable wind
farm whose solved selection value is strictly positive. -/
def save_results_wf (viable_wf_ids : List ℤ) (wf_bool_var : ℤ → ℚ)
    (wf_iso : ℤ → ℕ) (wf_lon wf_lat wf_cap wf_cost : ℤ → ℚ) :
    List (ℤ × Option String × ℚ × ℚ × ℚ × ℚ) :=
  (viable_wf_ids.filter fun wf => decide (0 < wf_bool_var wf)).map
    (wf_record wf_iso wf_lon wf_lat wf_cap wf_cost)

/-- The offshore substation record emitted by save_results: id, restored ISO
code, coordinates, attributes, rounded solved capacity and rounded cost. -/
def oss_record (oss_cap_var : ℤ → ℚ) (oss_iso : ℤ → ℕ)
    (oss_lon oss_lat oss_wdepth oss_icover oss_pdist oss_cost_exp : ℤ → ℚ)
    (oss : ℤ) : ℤ × Option String × ℚ × ℚ × ℚ × ℚ × ℚ × ℤ × ℤ :=
  (oss, int_to_iso_mp (oss_iso oss), oss_lon oss, oss_lat oss,
   oss_wdepth oss, oss_icover oss, oss_pdist oss, var_f (oss_cap_var oss),
   exp_f (oss_cost_exp oss))

/-- The oss_ids collection of save_results: one record for each viable
offshore substation whose solved capacity is strictly positive. -/
def save_results_oss (viable_oss_ids : List ℤ) (oss_cap_var : ℤ → ℚ)
    (oss_iso : ℤ → ℕ)
    (oss_lon oss_lat oss_wdepth oss_icover oss_pdist oss_cost_exp : ℤ → ℚ) :
    List (ℤ × Option String × ℚ × ℚ × ℚ × ℚ × ℚ × ℤ × ℤ) :=
  (viable_oss_ids.filter fun oss => decide (0 < oss_cap_var oss)).map
    (oss_record oss_cap_var oss_iso oss_lon oss_lat oss_wdepth oss_icover
      oss_pdist oss_cost_exp)

/-- The onshore substation record emitted by save_results. -/
def onss_record (onss_cap_var : ℤ → ℚ) (onss_iso : ℤ → ℕ)
    (onss_lon onss_lat onss_thold onss_cost_exp : ℤ → ℚ) (onss : ℤ) :
    ℤ × Option String × ℚ × ℚ × ℚ × ℤ × ℤ :=
  (onss, int_to_iso_mp (onss_iso onss), onss_lon onss, onss_lat onss,
   onss_thold onss, var_f (onss_cap_var onss), exp_f (onss_cost_exp onss))

/-- The onss_ids collection of save_results: one record for each viable
onshore substation whose solved capacity is strictly positive. -/
def save_results_onss (viable_onss_ids : List ℤ) (onss_cap_var : ℤ → ℚ)
    (onss_iso : ℤ → ℕ) (onss_lon onss_lat onss_thold onss_cost_exp : ℤ → ℚ) :
    List (ℤ × Option String × ℚ × ℚ × ℚ × ℤ × ℤ) :=
  (viable_onss_ids.filter fun onss => decide (0 < onss_cap_var onss)).map
    (onss_record onss_cap_var onss_iso onss_lon onss_lat onss_thold
      onss_cost_exp)

/-- The inter-array cable record emitted by save_results: endpoint ids,
endpoint coordinates, rounded solved capacity and rounded cost. -/
def iac_record (iac_cap_var : ℤ × ℤ → ℚ)
    (wf_lon wf_lat oss_lon oss_lat : ℤ → ℚ) (iac_cost_exp : ℤ × ℤ → ℚ)
    (e : ℤ × ℤ) : (ℤ × ℤ) × ℚ × ℚ × ℚ × ℚ × ℤ × ℤ :=
  (e, wf_lon e.1, wf_lat e.1, oss_lon e.2, oss_lat e.2,
   var_f (iac_cap_var e), exp_f (iac_cost_exp e))

/-- The iac_ids collection of save_results: one record for each viable
inter-array connection whose solved capacity is strictly positive. -/
def save_results_iac (viable_iac_ids : List (ℤ × ℤ))
    (iac_cap_var : ℤ × ℤ → ℚ) (wf_lon wf_lat oss_lon oss_lat : ℤ → ℚ)
    (iac_cost_exp : ℤ × ℤ → ℚ) :
    List ((ℤ × ℤ) × ℚ × ℚ × ℚ × ℚ × ℤ × ℤ) :=
  (viable_iac_ids.filter fun e => decide (0 < iac_cap_var e)).map
    (iac_record iac_cap_var wf_lon wf_lat oss_lon oss_lat iac_cost_exp)

/-- The export cable record emitted by save_results. -/
def ec_record (ec_cap_var : ℤ × ℤ → ℚ)
    (oss_lon oss_lat onss_lon onss_lat : ℤ → ℚ) (ec_cost_exp : ℤ × ℤ → ℚ)
    (e : ℤ × ℤ) : (ℤ × ℤ) × ℚ × ℚ × ℚ × ℚ × ℤ × ℤ :=
  (e, oss_lon e.1, oss_lat e.1, onss_lon e.2, onss_lat e.2,
   var_f (ec_cap_var e), exp_f (ec_cost_exp e))

/-- The ec_ids collection of save_results: one record for each viable export
connection whose solved capacity is strictly positive. -/
def save_results_ec (viable_ec_ids : List (ℤ × ℤ)) (ec_cap_var : ℤ × ℤ → ℚ)
    (oss_lon oss_lat onss_lon onss_lat : ℤ → ℚ) (ec_cost_exp : ℤ × ℤ → ℚ) :
    List ((ℤ × ℤ) × ℚ × ℚ × ℚ × ℚ × ℤ × ℤ) :=
  (viable_ec_ids.filter fun e => decide (0 < ec_cap_var e)).map
    (ec_record ec_cap_var oss_lon oss_lat onss_lon onss_lat ec_cost_exp)

/-- A raw wind farm dataset row: id, ISO code string, longitude, latitude,
capacity and cost (columns 0, 1, 2, 3, 5, 6 of wf_data.npy). -/
structure WFRow where
  id : ℤ
  iso : String
  lon : ℚ
  lat : ℚ
  cap : ℚ
  cost : ℚ

/-- A raw offshore substation dataset row (columns 0 to 6 of oss_data.npy). -/
structure OSSRow where
  id : ℤ
  iso : String
  lon : ℚ
  lat : ℚ
  wdepth : ℚ
  icover : ℚ
  pdist : ℚ

/-- A raw onshore substation dataset row (columns 0 to 4 of onss_data.npy). -/
structure ONSSRow where
  id : ℤ
  iso : String
  lon : ℚ
  lat : ℚ
  thold : ℚ

/-- A processed wind farm entry with the integer-mapped ISO code. -/
structure WFData where
  id : ℤ
  iso : ℕ
  lon : ℚ
  lat : ℚ
  cap : ℚ
  cost : ℚ

/-- A processed offshore substation entry. -/
structure OSSData where
  id : ℤ
  iso : ℕ
  lon : ℚ
  lat : ℚ
  wdepth : ℚ
  icover : ℚ
  pdist : ℚ

/-- A processed onshore substation entry. -/
structure ONSSData where
  id : ℤ
  iso : ℕ
  lon : ℚ
  lat : ℚ
  thold : ℚ

/-- Process a dataset row by row; a failing row (Python KeyError, embedded
as none) aborts the whole processing step. -/
def process_rows {α β : Type} (f : α → Option β) : List α → Option (List β)
  | [] => some []
  | r :: rs => (f r).bind fun b => (process_rows f rs).map fun bs => b :: bs

/-- Processing of one wind farm row: the ISO code is looked up in
iso_to_int_mp; an unmapped code fails. -/
def process_wf_row (r : WFRow) : Option WFData :=
  (iso_to_int_mp r.iso).map fun k => ⟨r.id, k, r.lon, r.lat, r.cap, r.cost⟩

/-- Processing of one offshore substation row. -/
def process_oss_row (r : OSSRow) : Option OSSData :=
  (iso_to_int_mp r.iso).map fun k =>
    ⟨r.id, k, r.lon, r.lat, r.wdepth, r.icover, r.pdist⟩

/-- Processing of one onshore substation row. -/
def process_onss_row (r : ONSSRow) : Option ONSSData :=
  (iso_to_int_mp r.iso).map fun k => ⟨r.id, k, r.lon, r.lat, r.thold⟩

/-- Geographic view of a processed wind farm entry. -/
def wf_geo (d : WFData) : GeoEnt := ⟨d.id, d.iso, (d.lon : ℝ), (d.lat : ℝ)⟩

/-- Geographic view of a processed offshore substation entry. -/
def oss_geo (d : OSSData) : GeoEnt := ⟨d.id, d.iso, (d.lon : ℝ), (d.lat : ℝ)⟩

/-- Geographic view of a processed onshore substation entry. -/
def onss_geo (d : ONSSData) : GeoEnt :=
  ⟨d.id, d.iso, (d.lon : ℝ), (d.lat : ℝ)⟩

/-- Model construction phase of opt_model up to variable declaration: the
three datasets are processed (each ISO code looked up in iso_to_int_mp),
and only if all three processing loops succeed are the viable connections
computed and the decision variables declared; a key-lookup failure during
data processing yields none and no variable is ever declared. -/
noncomputable def opt_model_build (wf_dataset : List WFRow)
    (oss_dataset : List OSSRow) (onss_dataset : List ONSSRow) :
    Option ModelVars :=
  (process_rows process_wf_row wf_dataset).bind fun wfD =>
  (process_rows process_oss_row oss_dataset).bind fun ossD =>
  (process_rows process_onss_row onss_dataset).bind fun onssD =>
  some (declare_variables
    (find_viable_iac (wfD.map wf_geo) (ossD.map oss_geo))
    (find_viable_ec (ossD.map oss_geo) (onssD.map onss_geo)))

/-- A wind farm row carrying an ISO code outside the eight mapped Baltic
codes. -/
def wf_row_unmapped : WFRow := ⟨1, "NO", 0, 0, 0, 0⟩

/-- C9: the two haversine implementations agree up to units: the metre-valued
haversine_distance_scalar equals 1000 times the kilometre-valued haversine on
every input. -/
theorem C9_haversine_scalar_eq_1000_mul_haversine :
    ∀ lon1 lat1 lon2 lat2 : ℝ,
      haversine_distance_scalar lon1 lat1 lon2 lat2 =
        1000 * haversine lon1 lat1 lon2 lat2 := by
  intro lon1 lat1 lon2 lat2
  simp only [haversine_distance_scalar, haversine]
  ring

/-- C1: every connection accepted by find_viable_iac joins a listed wind farm
to a listed offshore substation at haversine distance at most 150 km with
equal country codes, and every connection accepted by find_viable_ec joins a
listed offshore substation to a listed onshore substation at haversine
distance at most 300 km with equal country codes; no violating pair is ever
accepted. -/
theorem C1_accepted_edges_feasible :
    (∀ (wf oss : List GeoEnt) (p : ℤ × ℤ), p ∈ find_viable_iac wf oss →
      ∃ w, w ∈ wf ∧ ∃ o, o ∈ oss ∧ p = (w.id, o.id) ∧
        haversine w.lon w.lat o.lon o.lat ≤ 150 ∧ w.iso = o.iso) ∧
    (∀ (oss onss : List GeoEnt) (p : ℤ × ℤ), p ∈ find_viable_ec oss onss →
      ∃ o, o ∈ oss ∧ ∃ n, n ∈ onss ∧ p = (o.id, n.id) ∧
        haversine o.lon o.lat n.lon n.lat ≤ 300 ∧ o.iso = n.iso) := by
  constructor
  · intro wf oss p hp
    rw [find_viable_iac, List.mem_flatMap] at hp
    obtain ⟨w, hw, hmem⟩ := hp
    rw [List.mem_filterMap] at hmem
    obtain ⟨o, ho, heq⟩ := hmem
    split_ifs at heq with h1 h2
    · exact ⟨w, hw, o, ho, (Option.some.inj heq).symm, h1, h2⟩
  · intro oss onss p hp
    rw [find_viable_ec, List.mem_flatMap] at hp
    obtain ⟨o, ho, hmem⟩ := hp
    rw [List.mem_filterMap] at hmem
    obtain ⟨n, hn, heq⟩ := hmem
    split_ifs at heq with h1 h2
    · exact ⟨o, ho, n, hn, (Option.some.inj heq).symm, h1, h2⟩

/-- Witness for C1: the feasibility theorem applied to concrete singleton
inputs whose entities coincide geographically and share a country code. -/
theorem C1_accepted_edges_feasible_witness :
    (∃ w, w ∈ [wfW] ∧ ∃ o, o ∈ [ossW] ∧ ((1 : ℤ), (2 : ℤ)) = (w.id, o.id) ∧
      haversine w.lon w.lat o.lon o.lat ≤ 150 ∧ w.iso = o.iso) ∧
    (∃ o, o ∈ [ossW] ∧ ∃ n, n ∈ [onssW] ∧ ((2 : ℤ), (3 : ℤ)) = (o.id, n.id) ∧
      haversine o.lon o.lat n.lon n.lat ≤ 300 ∧ o.iso = n.iso) := by
  have hz : haversine 0 0 0 0 = 0 := by
    simp [haversine, deg2rad]
  constructor
  · refine C1_accepted_edges_feasible.1 [wfW] [ossW] (1, 2) ?_
    rw [find_viable_iac, List.mem_flatMap]
    refine ⟨wfW, by simp, ?_⟩
    rw [List.mem_filterMap]
    refine ⟨ossW, by simp, ?_⟩
    show (if haversine wfW.lon wfW.lat ossW.lon ossW.lat ≤ 150 then
        if wfW.iso = ossW.iso then some (wfW.id, ossW.id) else none
      else none) = some (1, 2)
    rw [if_pos (by rw [show wfW.lon = 0 from rfl, show wfW.lat = 0 from rfl,
        show ossW.lon = 0 from rfl, show ossW.lat = 0 from rfl, hz]; norm_num)]
    rfl
  · refine C1_accepted_edges_feasible.2 [ossW] [onssW] (2, 3) ?_
    rw [find_viable_ec, List.mem_flatMap]
    refine ⟨ossW, by simp, ?_⟩
    rw [List.mem_filterMap]
    refine ⟨onssW, by simp, ?_⟩
    show (if haversine ossW.lon ossW.lat onssW.lon onssW.lat ≤ 300 then
        if ossW.iso = onssW.iso then some (ossW.id, onssW.id) else none
      else none) = some (2, 3)
    rw [if_pos (by rw [show ossW.lon = 0 from rfl, show ossW.lat = 0 from rfl,
        show onssW.lon = 0 from rfl, show onssW.lat = 0 from rfl, hz]; norm_num)]
    rfl

/-- C2: the viable wind-farm index set is exactly the first endpoints of the
inter-array connections, the viable onshore set exactly the second endpoints
of the export connections, the viable offshore set exactly the union of
second inter-array endpoints and first export endpoints; decision variables
are indexed only by these sets, so an entity with no feasible edge carries
no decision variable. -/
theorem C2_viable_entities_exact :
    ∀ viable_iac viable_ec : List (ℤ × ℤ),
      (∀ x, x ∈ (declare_variables viable_iac viable_ec).wf_bool_var_idx ↔
        ∃ o, (x, o) ∈ viable_iac) ∧
      (∀ x, x ∈ (declare_variables viable_iac viable_ec).onss_cap_var_idx ↔
        ∃ o, (o, x) ∈ viable_ec) ∧
      (∀ x, x ∈ (declare_variables viable_iac viable_ec).oss_cap_var_idx ↔
        ((∃ w, (w, x) ∈ viable_iac) ∨ ∃ n, (x, n) ∈ viable_ec)) ∧
      (∀ p, p ∈ (declare_variables viable_iac viable_ec).iac_cap_var_idx ↔
        p ∈ viable_iac) ∧
      (∀ p, p ∈ (declare_variables viable_iac viable_ec).ec_cap_var_idx ↔
        p ∈ viable_ec) ∧
      (∀ x, (∀ o, (x, o) ∉ viable_iac) →
        x ∉ (declare_variables viable_iac viable_ec).wf_bool_var_idx) ∧
      (∀ x, (∀ w, (w, x) ∉ viable_iac) → (∀ n, (x, n) ∉ viable_ec) →
        x ∉ (declare_variables viable_iac viable_ec).oss_cap_var_idx) ∧
      (∀ x, (∀ o, (o, x) ∉ viable_ec) →
        x ∉ (declare_variables viable_iac viable_ec).onss_cap_var_idx) := by
  intro viable_iac viable_ec
  have h1 : ∀ x, x ∈ (declare_variables viable_iac viable_ec).wf_bool_var_idx ↔
      ∃ o, (x, o) ∈ viable_iac := by
    intro x
    simp only [declare_variables, get_viable_entities, List.mem_toFinset,
      List.mem_map]
    constructor
    · rintro ⟨⟨a, b⟩, hm, rfl⟩
      exact ⟨b, hm⟩
    · rintro ⟨o, ho⟩
      exact ⟨(x, o), ho, rfl⟩
  have h2 : ∀ x, x ∈ (declare_variables viable_iac viable_ec).onss_cap_var_idx ↔
      ∃ o, (o, x) ∈ viable_ec := by
    intro x
    simp only [declare_variables, get_viable_entities, List.mem_toFinset,
      List.mem_map]
    constructor
    · rintro ⟨⟨a, b⟩, hm, rfl⟩
      exact ⟨a, hm⟩
    · rintro ⟨o, ho⟩
      exact ⟨(o, x), ho, rfl⟩
  have h3 : ∀ x, x ∈ (declare_variables viable_iac viable_ec).oss_cap_var_idx ↔
      ((∃ w, (w, x) ∈ viable_iac) ∨ ∃ n, (x, n) ∈ viable_ec) := by
    intro x
    simp only [declare_variables, get_viable_entities, Finset.mem_union,
      List.mem_toFinset, List.mem_map]
    constructor
    · rintro (⟨⟨a, b⟩, hm, rfl⟩ | ⟨⟨a, b⟩, hm, rfl⟩)
      · exact Or.inl ⟨a, hm⟩
      · exact Or.inr ⟨b, hm⟩
    · rintro (⟨w, hw⟩ | ⟨n, hn⟩)
      · exact Or.inl ⟨(w, x), hw, rfl⟩
      · exact Or.inr ⟨(x, n), hn, rfl⟩
  refine ⟨h1, h2, h3, ?_, ?_, ?_, ?_, ?_⟩
  · intro p
    simp [declare_variables]
  · intro p
    simp [declare_variables]
  · intro x hx hmem
    obtain ⟨o, ho⟩ := (h1 x).mp hmem
    exact hx o ho
  · intro x hw hn hmem
    rcases (h3 x).mp hmem with ⟨w, h⟩ | ⟨n, h⟩
    · exact hw w h
    · exact hn n h
  · intro x hx hmem
    obtain ⟨o, ho⟩ := (h2 x).mp hmem
    exact hx o ho

/-- Witness for C2: on the concrete connection lists [(1, 2)] and [(2, 3)],
the id 5, which has no feasible edge, receives no wind-farm, offshore or
onshore decision variable. -/
theorem C2_viable_entities_exact_witness :
    ((5 : ℤ) ∉ (declare_variables [((1 : ℤ), (2 : ℤ))]
      [((2 : ℤ), (3 : ℤ))]).wf_bool_var_idx) ∧
    ((5 : ℤ) ∉ (declare_variables [((1 : ℤ), (2 : ℤ))]
      [((2 : ℤ), (3 : ℤ))]).oss_cap_var_idx) ∧
    ((5 : ℤ) ∉ (declare_variables [((1 : ℤ), (2 : ℤ))]
      [((2 : ℤ), (3 : ℤ))]).onss_cap_var_idx) := by
  refine ⟨(C2_viable_entities_exact [(1, 2)] [(2, 3)]).2.2.2.2.2.1 5 ?_,
    (C2_viable_entities_exact [(1, 2)] [(2, 3)]).2.2.2.2.2.2.1 5 ?_ ?_,
    (C2_viable_entities_exact [(1, 2)] [(2, 3)]).2.2.2.2.2.2.2 5 ?_⟩
  · intro o ho
    simp at ho
  · intro w hw
    simp at hw
  · intro n hn
    simp at hn
  · intro o ho
    simp at ho

/-- C8: onss_cost_plh equals max(0, (capacity - threshold) * 1000); it is
zero exactly when capacity is at most the threshold and strictly positive
exactly when capacity exceeds it. -/
theorem C8_onss_cost_plh_max :
    ∀ capacity threshold : ℚ,
      onss_cost_plh capacity threshold =
        max 0 ((capacity - threshold) * 1000) ∧
      (onss_cost_plh capacity threshold = 0 ↔ capacity ≤ threshold) ∧
      (0 < onss_cost_plh capacity threshold ↔ threshold < capacity) := by
  intro c t
  have hmax : onss_cost_plh c t = max 0 ((c - t) * 1000) := by
    simp only [onss_cost_plh]
    rcases le_total ((c - t) * 1000) 0 with h | h
    · rw [abs_of_nonpos h, max_eq_left h]
      ring
    · rw [abs_of_nonneg h, max_eq_right h]
      ring
  refine ⟨hmax, ?_, ?_⟩
  · rw [hmax]
    constructor
    · intro h
      by_contra hc
      push_neg at hc
      have hp : 0 < (c - t) * 1000 := by nlinarith
      rw [max_eq_right hp.le] at h
      linarith
    · intro h
      have hn : (c - t) * 1000 ≤ 0 := by nlinarith
      rw [max_eq_left hn]
  · rw [hmax]
    constructor
    · intro h
      by_contra hc
      push_neg at hc
      have hn : (c - t) * 1000 ≤ 0 := by nlinarith
      rw [max_eq_left hn] at h
      exact lt_irrefl 0 h
    · intro h
      have hp : 0 < (c - t) * 1000 := by nlinarith
      rw [max_eq_right hp.le]
      exact hp

/-- Counterexample to C3: when the Stage 1 solve reports infeasible, the
orchestration still fixes the Stage 1 variables, still invokes the Stage 2
solve, and (when Stage 2 reports optimal) still writes result files. -/
theorem C3_counterexample_stage1_infeasible_still_proceeds :
    OrchEvent.fixStage1Vars ∈
      opt_model_orchestration infeasible_stage1 optimal_result ∧
    OrchEvent.solveStage2 ∈
      opt_model_orchestration infeasible_stage1 optimal_result ∧
    OrchEvent.saveResults ∈
      opt_model_orchestration infeasible_stage1 optimal_result := by
  decide

/-- C3 amended: the orchestrator never inspects the Stage 1 status; for
every Stage 1 result the variables are frozen and Stage 2 is invoked, and
result files are written exactly when the Stage 2 result has status ok with
termination optimal. -/
theorem C3_stage1_status_ignored :
    ∀ results_stage1 results : SolveResult,
      OrchEvent.fixStage1Vars ∈
        opt_model_orchestration results_stage1 results ∧
      OrchEvent.solveStage2 ∈
        opt_model_orchestration results_stage1 results ∧
      (OrchEvent.saveResults ∈
          opt_model_orchestration results_stage1 results ↔
        (results.status = SolverStatus.ok ∧
          results.termination = TerminationCondition.optimal)) := by
  decide

/-- Counterexample to C4: at the moment the Stage 1 solve is invoked,
constraint 4 (ec_cap_connect_con) has not been deactivated, so the claimed
constraint configuration does not hold. -/
theorem C4_counterexample_ec_con_active_at_stage1 :
    ¬ (model_at_stage1_solve.tot_wf_cap_con_active = true ∧
       model_at_stage1_solve.iac_cap_connect_con_active = true ∧
       model_at_stage1_solve.oss_cap_connect_con_active = true ∧
       model_at_stage1_solve.ec_cap_connect_con_active = false ∧
       model_at_stage1_solve.onss_cap_connect_con_active = false) := by
  decide

/-- C4 amended: at the moment the Stage 1 solve is invoked, constraints 1-4
(minimum aggregate capacity, inter-array balance, offshore capacity sizing,
export balance) are active and only constraint 5 (onshore capacity sizing)
is deactivated. -/
theorem C4_stage1_constraints_one_to_four_active :
    model_at_stage1_solve.tot_wf_cap_con_active = true ∧
    model_at_stage1_solve.iac_cap_connect_con_active = true ∧
    model_at_stage1_solve.oss_cap_connect_con_active = true ∧
    model_at_stage1_solve.ec_cap_connect_con_active = true ∧
    model_at_stage1_solve.onss_cap_connect_con_active = false := by
  decide

/-- C5: ec_cap_connect_rule sums over the offshore id set where the claim
says the viable onshore set. On viable_oss_ids = {10}, viable_onss_ids =
{7}, viable_ec_ids = {(10, 7)} with every export capacity 5 and offshore
capacity 5, the code's sum is empty (0) and its constraint fails, while the
claim's sum is 5 and its constraint holds. -/
theorem C5_ec_cap_connect_rule_sums_offshore_set :
    ec_cap_connect_rule_lhs {10} {(10, 7)} (const_edge_cap 5) 10 = 0 ∧
    ec_cap_connect_rule_lhs_claim {7} {(10, 7)} (const_edge_cap 5) 10 = 5 ∧
    ¬ ec_cap_connect_rule {10} {(10, 7)} (const_edge_cap 5)
        (const_node_cap 5) 10 ∧
    ec_cap_connect_rule_claim {7} {(10, 7)} (const_edge_cap 5)
        (const_node_cap 5) 10 := by
  have h0 : ec_cap_connect_rule_lhs {10} {(10, 7)} (const_edge_cap 5) 10 = 0 := by
    norm_num [ec_cap_connect_rule_lhs, Finset.filter_singleton]
  have h5 : ec_cap_connect_rule_lhs_claim {7} {(10, 7)}
      (const_edge_cap 5) 10 = 5 := by
    norm_num [ec_cap_connect_rule_lhs_claim, Finset.filter_singleton,
      const_edge_cap]
  refine ⟨h0, h5, ?_, ?_⟩
  · simp only [ec_cap_connect_rule, h0, const_node_cap]
    norm_num
  · simp only [ec_cap_connect_rule_claim, h5, const_node_cap]
    norm_num

/-- C6: at the Stage 2 solve exactly wf_bool_var, oss_cap_var and
iac_cap_var are fixed to their Stage 1 solved values, onss_cap_var and
ec_cap_var remain free, constraints 1-3 are deactivated and constraints 4
and 5 are active. -/
theorem C6_stage2_frame :
    model_at_stage2_solve.wf_bool_var_state = VarState.fixedStage1 ∧
    model_at_stage2_solve.oss_cap_var_state = VarState.fixedStage1 ∧
    model_at_stage2_solve.iac_cap_var_state = VarState.fixedStage1 ∧
    model_at_stage2_solve.onss_cap_var_state = VarState.free ∧
    model_at_stage2_solve.ec_cap_var_state = VarState.free ∧
    model_at_stage2_solve.tot_wf_cap_con_active = false ∧
    model_at_stage2_solve.iac_cap_connect_con_active = false ∧
    model_at_stage2_solve.oss_cap_connect_con_active = false ∧
    model_at_stage2_solve.ec_cap_connect_con_active = true ∧
    model_at_stage2_solve.onss_cap_connect_con_active = true := by
  decide

/-- Membership in a positively-filtered mapped collection: a record is
emitted exactly for the entities of the input list with strictly positive
value, and equals the record built from that entity. -/
theorem positive_filter_map_mem {α β : Type} (v : List α) (val : α → ℚ)
    (mk : α → β) (r : β) :
    r ∈ (v.filter fun x => decide (0 < val x)).map mk ↔
      ∃ x, x ∈ v ∧ 0 < val x ∧ r = mk x := by
  simp only [List.mem_map, List.mem_filter, decide_eq_true_eq]
  constructor
  · rintro ⟨x, ⟨hv, hp⟩, he⟩
    exact ⟨x, hv, hp, he.symm⟩
  · rintro ⟨x, hv, hp, he⟩
    exact ⟨x, ⟨hv, hp⟩, he.symm⟩

/-- The keys of a positively-filtered mapped collection are distinct when
the input list is duplicate-free: one record per retained entity. -/
theorem positive_filter_map_keys_nodup {α β : Type} (v : List α)
    (q : α → Bool) (mk : α → β) (key : β → α) (hk : ∀ x, key (mk x) = x)
    (hn : v.Nodup) : (((v.filter q).map mk).map key).Nodup := by
  rw [List.map_map]
  have h2 : (v.filter q).map (key ∘ mk) = v.filter q := by
    rw [show (key ∘ mk) = id from funext hk]
    exact List.map_id (v.filter q)
  rw [h2]
  exact hn.filter q

/-- C7: each of the five save_results collections contains a record exactly
for the viable entities or connections with strictly positive solved value,
the record pairing them with their static attributes and rounded realized
cost; and on a duplicate-free viable list the record keys are distinct, so
each selected item yields exactly one record and zero-valued items yield
none. -/
theorem C7_save_results_positive_only :
    (∀ (v : List ℤ) (bv : ℤ → ℚ) (iso : ℤ → ℕ) (lon lat cap cost : ℤ → ℚ),
      (∀ r, r ∈ save_results_wf v bv iso lon lat cap cost ↔
        ∃ x, x ∈ v ∧ 0 < bv x ∧ r = wf_record iso lon lat cap cost x) ∧
      (v.Nodup →
        ((save_results_wf v bv iso lon lat cap cost).map Prod.fst).Nodup)) ∧
    (∀ (v : List ℤ) (cv : ℤ → ℚ) (iso : ℤ → ℕ)
        (lon lat wdepth icover pdist cost : ℤ → ℚ),
      (∀ r, r ∈ save_results_oss v cv iso lon lat wdepth icover pdist cost ↔
        ∃ x, x ∈ v ∧ 0 < cv x ∧
          r = oss_record cv iso lon lat wdepth icover pdist cost x) ∧
      (v.Nodup → ((save_results_oss v cv iso lon lat wdepth icover pdist
        cost).map Prod.fst).Nodup)) ∧
    (∀ (v : List ℤ) (cv : ℤ → ℚ) (iso : ℤ → ℕ)
        (lon lat thold cost : ℤ → ℚ),
      (∀ r, r ∈ save_results_onss v cv iso lon lat thold cost ↔
        ∃ x, x ∈ v ∧ 0 < cv x ∧
          r = onss_record cv iso lon lat thold cost x) ∧
      (v.Nodup → ((save_results_onss v cv iso lon lat thold cost).map
        Prod.fst).Nodup)) ∧
    (∀ (v : List (ℤ × ℤ)) (cv : ℤ × ℤ → ℚ)
        (wlon wlat olon olat : ℤ → ℚ) (cost : ℤ × ℤ → ℚ),
      (∀ r, r ∈ save_results_iac v cv wlon wlat olon olat cost ↔
        ∃ x, x ∈ v ∧ 0 < cv x ∧
          r = iac_record cv wlon wlat olon olat cost x) ∧
      (v.Nodup → ((save_results_iac v cv wlon wlat olon olat cost).map
        Prod.fst).Nodup)) ∧
    (∀ (v : List (ℤ × ℤ)) (cv : ℤ × ℤ → ℚ)
        (olon olat nlon nlat : ℤ → ℚ) (cost : ℤ × ℤ → ℚ),
      (∀ r, r ∈ save_results_ec v cv olon olat nlon nlat cost ↔
        ∃ x, x ∈ v ∧ 0 < cv x ∧
          r = ec_record cv olon olat nlon nlat cost x) ∧
      (v.Nodup → ((save_results_ec v cv olon olat nlon nlat cost).map
        Prod.fst).Nodup)) := by
  refine ⟨?_, ?_, ?_, ?_, ?_⟩
  · intro v bv iso lon lat cap cost
    constructor
    · intro r
      exact positive_filter_map_mem v bv (wf_record iso lon lat cap cost) r
    · intro hn
      exact positive_filter_map_keys_nodup v _
        (wf_record iso lon lat cap cost) Prod.fst (fun x => rfl) hn
  · intro v cv iso lon lat wdepth icover pdist cost
    constructor
    · intro r
      exact positive_filter_map_mem v cv
        (oss_record cv iso lon lat wdepth icover pdist cost) r
    · intro hn
      exact positive_filter_map_keys_nodup v _
        (oss_record cv iso lon lat wdepth icover pdist cost) Prod.fst
        (fun x => rfl) hn
  · intro v cv iso lon lat thold cost
    constructor
    · intro r
      exact positive_filter_map_mem v cv
        (onss_record cv iso lon lat thold cost) r
    · intro hn
      exact positive_filter_map_keys_nodup v _
        (onss_record cv iso lon lat thold cost) Prod.fst (fun x => rfl) hn
  · intro v cv wlon wlat olon olat cost
    constructor
    · intro r
      exact positive_filter_map_mem v cv
        (iac_record cv wlon wlat olon olat cost) r
    · intro hn
      exact positive_filter_map_keys_nodup v _
        (iac_record cv wlon wlat olon olat cost) Prod.fst (fun x => rfl) hn
  · intro v cv olon olat nlon nlat cost
    constructor
    · intro r
      exact positive_filter_map_mem v cv
        (ec_record cv olon olat nlon nlat cost) r
    · intro hn
      exact positive_filter_map_keys_nodup v _
        (ec_record cv olon olat nlon nlat cost) Prod.fst (fun x => rfl) hn

/-- Witness for C7: the duplicate-freeness conclusions of the five
collections applied on concrete duplicate-free viable lists. -/
theorem C7_save_results_positive_only_witness :
    ((save_results_wf [1] (const_node_cap 1) const_node_iso
      (const_node_cap 0) (const_node_cap 0) (const_node_cap 0)
      (const_node_cap 0)).map Prod.fst).Nodup ∧
    ((save_results_oss [1] (const_node_cap 1) const_node_iso
      (const_node_cap 0) (const_node_cap 0) (const_node_cap 0)
      (const_node_cap 0) (const_node_cap 0) (const_node_cap 0)).map
        Prod.fst).Nodup ∧
    ((save_results_onss [1] (const_node_cap 1) const_node_iso
      (const_node_cap 0) (const_node_cap 0) (const_node_cap 0)
      (const_node_cap 0)).map Prod.fst).Nodup ∧
    ((save_results_iac [((1 : ℤ), (2 : ℤ))] (const_edge_cap 1)
      (const_node_cap 0) (const_node_cap 0) (const_node_cap 0)
      (const_node_cap 0) (const_edge_cap 0)).map Prod.fst).Nodup ∧
    ((save_results_ec [((2 : ℤ), (3 : ℤ))] (const_edge_cap 1)
      (const_node_cap 0) (const_node_cap 0) (const_node_cap 0)
      (const_node_cap 0) (const_edge_cap 0)).map Prod.fst).Nodup :=
  ⟨(C7_save_results_positive_only.1 [1] (const_node_cap 1) const_node_iso
      (const_node_cap 0) (const_node_cap 0) (const_node_cap 0)
      (const_node_cap 0)).2 (by decide),
   (C7_save_results_positive_only.2.1 [1] (const_node_cap 1) const_node_iso
      (const_node_cap 0) (const_node_cap 0) (const_node_cap 0)
      (const_node_cap 0) (const_node_cap 0) (const_node_cap 0)).2 (by decide),
   (C7_save_results_positive_only.2.2.1 [1] (const_node_cap 1)
      const_node_iso (const_node_cap 0) (const_node_cap 0) (const_node_cap 0)
      (const_node_cap 0)).2 (by decide),
   (C7_save_results_positive_only.2.2.2.1 [((1 : ℤ), (2 : ℤ))]
      (const_edge_cap 1) (const_node_cap 0) (const_node_cap 0)
      (const_node_cap 0) (const_node_cap 0) (const_edge_cap 0)).2 (by decide),
   (C7_save_results_positive_only.2.2.2.2 [((2 : ℤ), (3 : ℤ))]
      (const_edge_cap 1) (const_node_cap 0) (const_node_cap 0)
      (const_node_cap 0) (const_node_cap 0) (const_edge_cap 0)).2 (by decide)⟩

/-- A failing row anywhere in the dataset aborts the whole processing
loop. -/
theorem process_rows_eq_none {α β : Type} (f : α → Option β) (rows : List α)
    (r : α) (hr : r ∈ rows) (hf : f r = none) :
    process_rows f rows = none := by
  induction rows with
  | nil => cases hr
  | cons a rs ih =>
    simp only [process_rows]
    rcases List.mem_cons.mp hr with rfl | hmem
    · rw [hf]
      rfl
    · rw [ih hmem]
      cases f a
      · rfl
      · rfl

/-- C10: a dataset record whose ISO country code is not one of the eight
mapped Baltic codes makes model construction fail during data processing:
opt_model_build returns none, so the variable declaration step (and with it
every expression and constraint over the declared variables) is never
reached. -/
theorem C10_unmapped_iso_aborts_build :
    ∀ (wf_dataset : List WFRow) (oss_dataset : List OSSRow)
      (onss_dataset : List ONSSRow),
      ((∃ r, r ∈ wf_dataset ∧ iso_to_int_mp r.iso = none) ∨
       (∃ r, r ∈ oss_dataset ∧ iso_to_int_mp r.iso = none) ∨
       (∃ r, r ∈ onss_dataset ∧ iso_to_int_mp r.iso = none)) →
      opt_model_build wf_dataset oss_dataset onss_dataset = none := by
  intro wfs osss onsss h
  rcases h with ⟨r, hr, hone⟩ | ⟨r, hr, hone⟩ | ⟨r, hr, hone⟩
  · have hp : process_rows process_wf_row wfs = none :=
      process_rows_eq_none _ _ r hr (by simp [process_wf_row, hone])
    simp [opt_model_build, hp]
  · have hp : process_rows process_oss_row osss = none :=
      process_rows_eq_none _ _ r hr (by simp [process_oss_row, hone])
    cases hwf : process_rows process_wf_row wfs <;>
      simp [opt_model_build, hwf, hp]
  · have hp : process_rows process_onss_row onsss = none :=
      process_rows_eq_none _ _ r hr (by simp [process_onss_row, hone])
    cases hwf : process_rows process_wf_row wfs <;>
      cases hoss : process_rows process_oss_row osss <;>
        simp [opt_model_build, hwf, hoss, hp]

/-- Witness for C10: a concrete dataset containing the unmapped code NO
makes opt_model_build fail. -/
theorem C10_unmapped_iso_aborts_build_witness :
    opt_model_build [wf_row_unmapped] [] [] = none :=
  C10_unmapped_iso_aborts_build [wf_row_unmapped] [] []
    (Or.inl ⟨wf_row_unmapped, by simp, by decide⟩)
